import Mathlib

/-!
Shallow embedding of the appointment classification, ordering and
status-transition logic of `src/src/components/Appointments/AppointmentList.js`.

Time model: the source parses `appointment_date` strings (`"YYYY-MM-DD"`) with
`new Date(...)`, which yields midnight UTC of that calendar date, and parses
the combined string `` `${date}T${time}` `` as that midnight plus the
time-of-day.  We model instants as minutes since the epoch (`Nat`), a calendar
date as its epoch-day number (`Nat`), and a time-of-day as minutes after
midnight, and fix the ambient timezone to UTC, so that the calendar date of an
instant `t` is `t / 1440`.  The date-fns helpers used by the source are:
`isToday d` (the local calendar date of `d` equals the current date),
`isPast d` (`d.getTime() < Date.now()`, strict) and
`isFuture d` (`d.getTime() > Date.now()`, strict).
-/

/-- Minutes per day; the granularity of our instant model. -/
def minutesPerDay : Nat := 1440

/-- Model of date-fns `isToday`: the calendar date of instant `t` equals the
calendar date of the current instant `now`. -/
def isToday (t now : Nat) : Bool :=
  t / minutesPerDay == now / minutesPerDay

/-- Model of date-fns `isPast`: instant `t` is strictly before `now`. -/
def isPast (t now : Nat) : Bool :=
  t < now

/-- Model of date-fns `isFuture`: instant `t` is strictly after `now`. -/
def isFuture (t now : Nat) : Bool :=
  now < t

/-- Model of `new Date(apt.appointment_date)`: midnight (UTC) of the given
epoch day. -/
def dateInstant (date : Nat) : Nat :=
  date * minutesPerDay

/-- An appointment record, with the fields of the source data model.
`appointment_date` is an epoch-day number and `appointment_time` minutes after
midnight (see the module docstring); `id`, `status` and the remaining string
fields are kept as strings as in the source. -/
structure Appointment where
  id : String
  patient_id : String
  first_name : String
  last_name : String
  appointment_date : Nat
  appointment_time : Nat
  duration : Nat
  status : String
  reason : String
  notes : String
deriving DecidableEq, Repr, Inhabited

/-- Model of ``new Date(`${a.appointment_date}T${a.appointment_time}`)``: the
combined (date, time) instant of an appointment. -/
def aptInstant (a : Appointment) : Nat :=
  dateInstant a.appointment_date + a.appointment_time

/-- The comparator key order used by the sort in `filterAppointments`
(`dateA - dateB` on the combined instants). -/
def aptLE (a b : Appointment) : Prop :=
  aptInstant a ≤ aptInstant b

instance : DecidableRel aptLE := fun a b => Nat.decLe (aptInstant a) (aptInstant b)

instance : IsTotal Appointment aptLE := ⟨fun a b => Nat.le_total (aptInstant a) (aptInstant b)⟩

instance : IsTrans Appointment aptLE := ⟨fun _ _ _ h h2 => Nat.le_trans h h2⟩

/-- Model of `filtered.sort((a, b) => dateA - dateB)`: JavaScript
`Array.prototype.sort` with a numeric-key comparator is (per ES2019) a stable
sort ascending by the key, embedded here as a stable insertion sort by
`aptInstant`. -/
def sortAppointments (l : List Appointment) : List Appointment :=
  l.insertionSort aptLE

/-- The switch statement of `filterAppointments`: the filter stage applied to
the collection before sorting (the Filter Engine). Each branch keeps exactly
the lambda of the corresponding `case` of the source; any other key falls to
the `default` branch, which keeps the collection unchanged. -/
def filterByKey (appointments : List Appointment) (filter : String) (now : Nat) : List Appointment :=
  if filter == "today" then
    appointments.filter (fun apt => isToday (dateInstant apt.appointment_date) now)
  else if filter == "upcoming" then
    appointments.filter (fun apt =>
      isFuture (dateInstant apt.appointment_date) now || isToday (dateInstant apt.appointment_date) now)
  else if filter == "past" then
    appointments.filter (fun apt =>
      isPast (dateInstant apt.appointment_date) now && !isToday (dateInstant apt.appointment_date) now)
  else if filter == "scheduled" then
    appointments.filter (fun apt => apt.status == "scheduled")
  else if filter == "completed" then
    appointments.filter (fun apt => apt.status == "completed")
  else if filter == "cancelled" then
    appointments.filter (fun apt => apt.status == "cancelled")
  else
    appointments

/-- The whole of `filterAppointments`: the filter stage followed by the sort
stage. -/
def filterAppointments (appointments : List Appointment) (filter : String) (now : Nat) : List Appointment :=
  sortAppointments (filterByKey appointments filter now)

/-- Temporal bucket of an appointment relative to the current instant. -/
inductive Bucket where
  | Today
  | Upcoming
  | Past
deriving DecidableEq, Repr

/-- The classification realised by the `today` / `past` / `upcoming` branch
predicates of `filterAppointments` (the Classifier): `Today` when the `today`
branch keeps the appointment, else `Past` when the `past` branch keeps it,
else `Upcoming`. -/
def classifyDate (date now : Nat) : Bucket :=
  if isToday (dateInstant date) now then Bucket.Today
  else if isPast (dateInstant date) now && !isToday (dateInstant date) now then Bucket.Past
  else Bucket.Upcoming

/-- Model of `status.charAt(0).toUpperCase() + status.slice(1)`. -/
def capitalizeStatus (s : String) : String :=
  match s.data with
  | [] => ""
  | c :: cs => String.mk (c.toUpper :: cs)

/-- Model of `getStatusBadgeClass(status, appointmentDate)`; `now` stands for
the ambient `new Date()`. -/
def getStatusBadgeClass (status : String) (appointmentDate : Nat) (now : Nat) : String :=
  if status == "completed" then "badge-success"
  else if status == "cancelled" then "badge-danger"
  else if isPast (dateInstant appointmentDate) now && !isToday (dateInstant appointmentDate) now
      && status == "scheduled" then "badge-warning"
  else if isToday (dateInstant appointmentDate) now then "badge-info"
  else "badge-secondary"

/-- Model of `getStatusDisplayText(status, appointmentDate)`; `now` stands for
the ambient `new Date()`. -/
def getStatusDisplayText (status : String) (appointmentDate : Nat) (now : Nat) : String :=
  if status == "scheduled" && (isPast (dateInstant appointmentDate) now
      && !isToday (dateInstant appointmentDate) now) then "Missed"
  else capitalizeStatus status

/-- The Missed stat of the Quick Stats block: count of appointments whose date
is past (and not today) and whose raw status is `scheduled`. -/
def missedCount (appointments : List Appointment) (now : Nat) : Nat :=
  (appointments.filter (fun apt =>
    isPast (dateInstant apt.appointment_date) now
      && !isToday (dateInstant apt.appointment_date) now
      && apt.status == "scheduled")).length

/-- The Upcoming stat of the Quick Stats block: count of appointments whose
date is future or today and whose raw status is `scheduled`. -/
def upcomingScheduledCount (appointments : List Appointment) (now : Nat) : Nat :=
  (appointments.filter (fun apt =>
    (isFuture (dateInstant apt.appointment_date) now || isToday (dateInstant apt.appointment_date) now)
      && apt.status == "scheduled")).length

/-- Intersection of two collections, as a sub-collection of the first: the
elements of `xs` that also occur in `ys`. -/
def listInter (xs ys : List Appointment) : List Appointment :=
  xs.filter (fun a => decide (a ∈ ys))

/-- Errors of the Store Adapter update operation. -/
inductive UpdateError where
  | NotFound
  | StoreUnavailable
deriving DecidableEq, Repr

/-- Modelled from the spec: the Store Adapter operation
`update(id, patch) -> updated Appointment, or fails with NotFound |
StoreUnavailable` is not in the sources (only its call site
`window.electronAPI.appointments.update` is); per the spec it fails with
`NotFound` when no record has the given id, and otherwise replaces the fields
of that record by the patch.  The call site always passes a whole record
(`{...appointment, status: newStatus}`) as the patch, so the patch is modelled
as a full record that replaces the stored one.  We return the updated store
(the collection a subsequent `getAll` reload observes). -/
def storeUpdate (store : List Appointment) (id : String) (patch : Appointment) :
    Except UpdateError (List Appointment) :=
  if store.any (fun a => a.id == id) then
    Except.ok (store.map (fun a => if a.id == id then patch else a))
  else
    Except.error UpdateError.NotFound

/-- Model of `handleStatusChange(appointmentId, newStatus)` on the
electron-backed path, with the component snapshot equal to the store contents
(the invariant the reload maintains).  The source looks the record up with
`find`, sends `{...appointment, status: newStatus}` to the store update and
reloads on success; when `find` misses, the spread of `undefined` produces a
patch carrying only the status field (modelled with default values).  A store
failure is caught: the collection is left unchanged and the error message is
set.  Returns the resulting collection and the error message, if any. -/
def handleStatusChange (appointments : List Appointment) (appointmentId newStatus : String) :
    List Appointment × Option String :=
  let patch : Appointment :=
    match appointments.find? (fun apt => apt.id == appointmentId) with
    | some appointment => { appointment with status := newStatus }
    | none => { (default : Appointment) with status := newStatus }
  match storeUpdate appointments appointmentId patch with
  | Except.ok newStore => (newStore, none)
  | Except.error _ => (appointments, some "Failed to update appointment status.")

/-- Model of the mock branch of `handleStatusChange` (the in-memory path taken
when `window.electronAPI` is absent): `prev.map(apt => apt.id === appointmentId
? {...apt, status: newStatus} : apt)`. -/
def handleStatusChangeMock (appointments : List Appointment) (appointmentId newStatus : String) :
    List Appointment :=
  appointments.map (fun apt =>
    if apt.id == appointmentId then { apt with status := newStatus } else apt)

/-- Concrete record builder used by scenario witnesses and counterexamples. -/
def mkApt (id : String) (date time : Nat) (status : String) : Appointment :=
  { id := id, patient_id := "0", first_name := "", last_name := "",
    appointment_date := date, appointment_time := time, duration := 30,
    status := status, reason := "", notes := "" }

/-- Helper: in a collection with pairwise distinct ids, two members with the
same id are the same record. -/
theorem mem_eq_of_pairwise_ids {l : List Appointment}
    (h : l.Pairwise (fun x y => x.id ≠ y.id)) {a b : Appointment}
    (ha : a ∈ l) (hb : b ∈ l) (hid : a.id = b.id) : a = b := by
  induction l with
  | nil => cases ha
  | cons c t ih =>
    rw [List.pairwise_cons] at h
    rcases List.mem_cons.mp ha with rfl | ha2
    · rcases List.mem_cons.mp hb with rfl | hb2
      · rfl
      · exact absurd hid (h.1 b hb2)
    · rcases List.mem_cons.mp hb with rfl | hb2
      · exact absurd hid.symm (h.1 a ha2)
      · exact ih h.2 ha2 hb2

/-- C1: for every appointment date and current instant, the classification
realised by the today/upcoming/past filter branches yields Past when the date
is strictly before the current calendar date, Today when it equals it, and
Upcoming when it is strictly after it. -/
theorem c1_classifier (date now : Nat) :
    classifyDate date now =
      (if date < now / minutesPerDay then Bucket.Past
       else if date = now / minutesPerDay then Bucket.Today
       else Bucket.Upcoming) := by
  simp only [classifyDate, isToday, isPast, dateInstant, minutesPerDay, Bool.and_eq_true,
    Bool.not_eq_true', beq_iff_eq, beq_eq_false_iff_ne, decide_eq_true_eq, ne_eq]
  split_ifs <;> first | rfl | omega

/-- C2: the Status Evaluator rules apply in priority order: status completed
yields label Completed with severity success (badge-success) and status
cancelled yields label Cancelled with severity danger (badge-danger),
regardless of the date; status scheduled with bucket Past yields label Missed
with severity warning (badge-warning). -/
theorem c2_statusEvaluator (d now : Nat) :
    (getStatusBadgeClass "completed" d now = "badge-success"
      ∧ getStatusDisplayText "completed" d now = "Completed")
    ∧ (getStatusBadgeClass "cancelled" d now = "badge-danger"
      ∧ getStatusDisplayText "cancelled" d now = "Cancelled")
    ∧ (classifyDate d now = Bucket.Past →
        getStatusBadgeClass "scheduled" d now = "badge-warning"
          ∧ getStatusDisplayText "scheduled" d now = "Missed") := by
  refine ⟨⟨rfl, rfl⟩, ⟨rfl, rfl⟩, fun h => ?_⟩
  cases hT : isToday (dateInstant d) now with
  | true => simp [classifyDate, hT] at h
  | false =>
    cases hP : isPast (dateInstant d) now with
    | false => simp [classifyDate, hT, hP] at h
    | true =>
      constructor
      · simp [getStatusBadgeClass, hT, hP]
      · simp [getStatusDisplayText, hT, hP]

/-- C2 witness, scenario A: an appointment dated 2024-02-20 (epoch day 19773),
status scheduled, evaluated with now inside 2024-02-25 (epoch day 19778) gets
bucket Past, label Missed, severity warning. -/
theorem c2_statusEvaluator_witness :
    classifyDate 19773 (19778 * 1440 + 600) = Bucket.Past
      ∧ getStatusBadgeClass "scheduled" 19773 (19778 * 1440 + 600) = "badge-warning"
      ∧ getStatusDisplayText "scheduled" 19773 (19778 * 1440 + 600) = "Missed" :=
  ⟨by decide,
   ((c2_statusEvaluator 19773 (19778 * 1440 + 600)).2.2 (by decide)).1,
   ((c2_statusEvaluator 19773 (19778 * 1440 + 600)).2.2 (by decide)).2⟩

/-- C3 counterexample: the source comparator is `dateA - dateB` only, and
JavaScript sort is stable, so two appointments with equal combined instants
keep their input order instead of being reordered by id: on the input
`[id "2", id "1"]` (same date and time) the sort returns the ids in the order
`"2", "1"`, refuting the id-ascending tie-break (id order taken as the
lexicographic order on the characters of the id, the order underlying the
string order; the two ids at hand, "1" and "2", are ordered the same way
under any reading of "smaller id"). -/
theorem c3_counterexample :
    ¬ (∀ (l : List Appointment) (a b : Appointment),
        sortAppointments l = [a, b] → aptInstant a = aptInstant b →
          a.id.data < b.id.data ∨ a.id = b.id) := by
  intro h
  have h2 := h [mkApt "2" 19773 540 "scheduled", mkApt "1" 19773 540 "scheduled"]
      (mkApt "2" 19773 540 "scheduled") (mkApt "1" 19773 540 "scheduled")
      (by decide) (by decide)
  rcases h2 with h2 | h2
  · exact absurd h2 (by decide)
  · exact absurd h2 (by decide)

/-- C3 amended: the sort operation orders any collection ascending by the
combined (date, time) instant (its output is sorted for that key and is a
permutation of the input); appointments with equal combined instants keep
their relative input order (the sort is stable), rather than being ordered by
id; for the same date, an earlier time-of-day entry (such as 09:00) is placed
before a later one (such as 14:30). -/
theorem c3_sortEngine (l : List Appointment) :
    List.Sorted aptLE (sortAppointments l)
    ∧ (sortAppointments l).Perm l
    ∧ (∀ a b : Appointment, aptInstant a = aptInstant b → [a, b].Sublist l →
        [a, b].Sublist (sortAppointments l))
    ∧ (∀ a b : Appointment, a.appointment_date = b.appointment_date →
        a.appointment_time < b.appointment_time → sortAppointments [b, a] = [a, b]) := by
  refine ⟨List.sorted_insertionSort aptLE l, List.perm_insertionSort aptLE l,
    fun a b hab h => List.pair_sublist_insertionSort (show aptLE a b from Nat.le_of_eq hab) h,
    fun a b hd ht => ?_⟩
  have hlt : aptInstant a < aptInstant b := by
    show dateInstant a.appointment_date + a.appointment_time
      < dateInstant b.appointment_date + b.appointment_time
    rw [hd]
    omega
  have hnle : ¬ aptLE b a := Nat.not_le.mpr hlt
  simp [sortAppointments, List.insertionSort, List.orderedInsert, hnle]

/-- C3 witness: a pair with equal instants that is a sublist of the input
stays a sublist of the sorted output, and (scenario B) a 09:00 entry is placed
before a 14:30 entry of the same date. -/
theorem c3_sortEngine_witness :
    [mkApt "1" 19773 540 "scheduled", mkApt "2" 19773 540 "completed"].Sublist
      (sortAppointments [mkApt "0" 19773 300 "scheduled",
        mkApt "1" 19773 540 "scheduled", mkApt "2" 19773 540 "completed"])
    ∧ sortAppointments [mkApt "b" 19773 870 "scheduled", mkApt "a" 19773 540 "scheduled"]
        = [mkApt "a" 19773 540 "scheduled", mkApt "b" 19773 870 "scheduled"] :=
  ⟨(c3_sortEngine [mkApt "0" 19773 300 "scheduled", mkApt "1" 19773 540 "scheduled",
      mkApt "2" 19773 540 "completed"]).2.2.1
      (mkApt "1" 19773 540 "scheduled") (mkApt "2" 19773 540 "completed")
      (by decide) (by decide),
   (c3_sortEngine []).2.2.2
      (mkApt "a" 19773 540 "scheduled") (mkApt "b" 19773 870 "scheduled")
      (by decide) (by decide)⟩

/-- C4: applying a status change for an id absent from the current snapshot
fails: the modelled Store Adapter update rejects any patch with NotFound, the
controller reports the failure and the collection is left unchanged; the
in-memory mock branch likewise leaves the collection unchanged. -/
theorem c4_notFound (store : List Appointment) (appointmentId newStatus : String)
    (habs : ∀ a ∈ store, a.id ≠ appointmentId) :
    (∀ patch, storeUpdate store appointmentId patch = Except.error UpdateError.NotFound)
    ∧ handleStatusChange store appointmentId newStatus
        = (store, some "Failed to update appointment status.")
    ∧ handleStatusChangeMock store appointmentId newStatus = store := by
  have hany : store.any (fun a => a.id == appointmentId) = false := by
    rw [List.any_eq_false]
    intro a ha
    simp [habs a ha]
  refine ⟨fun patch => ?_, ?_, ?_⟩
  · simp [storeUpdate, hany]
  · simp [handleStatusChange, storeUpdate, hany]
  · have hmap : store.map (fun apt =>
        if apt.id == appointmentId then { apt with status := newStatus } else apt)
        = store.map id :=
      List.map_congr_left (fun a ha => by
        simp [beq_eq_false_iff_ne.mpr (habs a ha)])
    rw [handleStatusChangeMock, hmap, List.map_id]

/-- C4 witness, scenario C: a status change aimed at the absent id 99 fails
with NotFound and leaves the one-record collection unchanged. -/
theorem c4_notFound_witness :
    storeUpdate [mkApt "1" 19773 540 "scheduled"] "99" (mkApt "99" 0 0 "completed")
        = Except.error UpdateError.NotFound
    ∧ handleStatusChange [mkApt "1" 19773 540 "scheduled"] "99" "completed"
        = ([mkApt "1" 19773 540 "scheduled"], some "Failed to update appointment status.")
    ∧ handleStatusChangeMock [mkApt "1" 19773 540 "scheduled"] "99" "completed"
        = [mkApt "1" 19773 540 "scheduled"] :=
  ⟨(c4_notFound [mkApt "1" 19773 540 "scheduled"] "99" "completed" (by decide)).1
      (mkApt "99" 0 0 "completed"),
   (c4_notFound [mkApt "1" 19773 540 "scheduled"] "99" "completed" (by decide)).2.1,
   (c4_notFound [mkApt "1" 19773 540 "scheduled"] "99" "completed" (by decide)).2.2⟩

/-- C5: filtering with key `all` is the identity on the collection, and any
key outside the fixed key set behaves exactly as `all` (the default branch of
the switch), not as an error. -/
theorem c5_filterAll (x : List Appointment) (now : Nat) :
    filterByKey x "all" now = x
    ∧ ∀ key : String,
        key ∉ (["all", "today", "upcoming", "past", "scheduled", "completed", "cancelled"] :
          List String) →
        filterByKey x key now = filterByKey x "all" now ∧ filterByKey x key now = x := by
  refine ⟨rfl, fun key hk => ?_⟩
  simp only [List.mem_cons, List.not_mem_nil, or_false, not_or] at hk
  obtain ⟨h1, h2, h3, h4, h5, h6, h7⟩ := hk
  have e2 : (key == "today") = false := beq_eq_false_iff_ne.mpr h2
  have e3 : (key == "upcoming") = false := beq_eq_false_iff_ne.mpr h3
  have e4 : (key == "past") = false := beq_eq_false_iff_ne.mpr h4
  have e5 : (key == "scheduled") = false := beq_eq_false_iff_ne.mpr h5
  have e6 : (key == "completed") = false := beq_eq_false_iff_ne.mpr h6
  have e7 : (key == "cancelled") = false := beq_eq_false_iff_ne.mpr h7
  constructor <;> simp [filterByKey, e2, e3, e4, e5, e6, e7]

/-- C5 witness: on a concrete collection, the key `all` and the unknown key
`bogus` both return the collection unchanged. -/
theorem c5_filterAll_witness :
    filterByKey [mkApt "1" 19773 540 "scheduled"] "all" 0 = [mkApt "1" 19773 540 "scheduled"]
    ∧ filterByKey [mkApt "1" 19773 540 "scheduled"] "bogus" 0
        = [mkApt "1" 19773 540 "scheduled"] :=
  ⟨(c5_filterAll [mkApt "1" 19773 540 "scheduled"] 0).1,
   ((c5_filterAll [mkApt "1" 19773 540 "scheduled"] 0).2 "bogus" (by decide)).2⟩

/-- C6: the Missed stat equals the size of the intersection of the `past`
filter result and the `scheduled` filter result: the count of appointments
whose bucket is Past and whose raw status is scheduled. -/
theorem c6_missedCount (x : List Appointment) (now : Nat) :
    missedCount x now
      = (listInter (filterByKey x "past" now) (filterByKey x "scheduled" now)).length := by
  have h1 : filterByKey x "past" now = x.filter (fun apt =>
      isPast (dateInstant apt.appointment_date) now
        && !isToday (dateInstant apt.appointment_date) now) := rfl
  have h2 : filterByKey x "scheduled" now
      = x.filter (fun apt => apt.status == "scheduled") := rfl
  have h3 : (x.filter (fun apt =>
      isPast (dateInstant apt.appointment_date) now
        && !isToday (dateInstant apt.appointment_date) now)).filter
        (fun a => decide (a ∈ x.filter (fun apt => apt.status == "scheduled")))
      = (x.filter (fun apt =>
      isPast (dateInstant apt.appointment_date) now
        && !isToday (dateInstant apt.appointment_date) now)).filter
        (fun apt => apt.status == "scheduled") :=
    List.filter_congr (fun a ha => by
      have hx : a ∈ x := List.mem_of_mem_filter ha
      cases hq : a.status == "scheduled" <;> simp [List.mem_filter, hx, hq])
  have h4 : (x.filter (fun apt =>
      isPast (dateInstant apt.appointment_date) now
        && !isToday (dateInstant apt.appointment_date) now)).filter
        (fun apt => apt.status == "scheduled")
      = x.filter (fun a => (a.status == "scheduled")
          && (isPast (dateInstant a.appointment_date) now
            && !isToday (dateInstant a.appointment_date) now)) := by
    rw [List.filter_filter]
  have h5 : x.filter (fun a => (a.status == "scheduled")
          && (isPast (dateInstant a.appointment_date) now
            && !isToday (dateInstant a.appointment_date) now))
      = x.filter (fun apt => isPast (dateInstant apt.appointment_date) now
          && !isToday (dateInstant apt.appointment_date) now
          && apt.status == "scheduled") :=
    List.filter_congr (fun a _ => Bool.and_comm _ _)
  simp only [missedCount, listInter]
  rw [h1, h2, h3, h4, h5]

/-- C7: the status keys filter on the raw stored status exactly, regardless of
the temporal bucket or the derived display label, and (scenario D) on a
collection of one scheduled and one completed appointment the `scheduled`
filter returns exactly the scheduled record. -/
theorem c7_statusFilters (x : List Appointment) (now : Nat) (a b : Appointment) :
    (a ∈ filterByKey x "scheduled" now ↔ a ∈ x ∧ a.status = "scheduled")
    ∧ (a ∈ filterByKey x "completed" now ↔ a ∈ x ∧ a.status = "completed")
    ∧ (a ∈ filterByKey x "cancelled" now ↔ a ∈ x ∧ a.status = "cancelled")
    ∧ (a.status = "scheduled" → b.status = "completed" →
        filterByKey [a, b] "scheduled" now = [a]) := by
  refine ⟨?_, ?_, ?_, fun ha hb => ?_⟩
  · show a ∈ x.filter (fun apt => apt.status == "scheduled") ↔ _
    simp [List.mem_filter]
  · show a ∈ x.filter (fun apt => apt.status == "completed") ↔ _
    simp [List.mem_filter]
  · show a ∈ x.filter (fun apt => apt.status == "cancelled") ↔ _
    simp [List.mem_filter]
  · show List.filter (fun apt => apt.status == "scheduled") [a, b] = [a]
    simp [List.filter_cons, ha, hb]

/-- C7 witness, scenario D: a past scheduled appointment still matches the key
`scheduled` (now is far after its date), and the completed record is dropped. -/
theorem c7_statusFilters_witness :
    filterByKey [mkApt "1" 19773 540 "scheduled", mkApt "2" 19773 600 "completed"]
        "scheduled" (19778 * 1440)
      = [mkApt "1" 19773 540 "scheduled"] :=
  (c7_statusFilters [] (19778 * 1440)
      (mkApt "1" 19773 540 "scheduled") (mkApt "2" 19773 600 "completed")).2.2.2 rfl rfl

/-- C8: every appointment kept by the `today` filter is kept by the `upcoming`
filter: the upcoming bucket is a superset of the today bucket. -/
theorem c8_todayUpcoming (x : List Appointment) (now : Nat) (a : Appointment)
    (h : a ∈ filterByKey x "today" now) : a ∈ filterByKey x "upcoming" now := by
  have h1 : filterByKey x "today" now
      = x.filter (fun apt => isToday (dateInstant apt.appointment_date) now) := rfl
  have h2 : filterByKey x "upcoming" now
      = x.filter (fun apt => isFuture (dateInstant apt.appointment_date) now
          || isToday (dateInstant apt.appointment_date) now) := rfl
  rw [h1, List.mem_filter] at h
  rw [h2, List.mem_filter]
  exact ⟨h.1, by simp [h.2]⟩

/-- C8 witness: an appointment dated today (status scheduled) appears in the
`upcoming` filter result. -/
theorem c8_todayUpcoming_witness :
    mkApt "1" 19773 540 "scheduled"
      ∈ filterByKey [mkApt "1" 19773 540 "scheduled"] "upcoming" (19773 * 1440 + 60) :=
  c8_todayUpcoming [mkApt "1" 19773 540 "scheduled"] (19773 * 1440 + 60)
    (mkApt "1" 19773 540 "scheduled") (by decide)

/-- C9: for an existing appointment id (in a collection with pairwise distinct
ids, the data-model invariant), a status change succeeds and produces exactly
the collection of the in-memory mock branch: the targeted record with only its
status field replaced, every other field of that record and every other record
preserved unchanged. -/
theorem c9_statusChangeFrame (store : List Appointment) (appointmentId newStatus : String)
    (huniq : store.Pairwise (fun x y => x.id ≠ y.id))
    (hmem : ∃ a ∈ store, a.id = appointmentId) :
    handleStatusChange store appointmentId newStatus
      = (handleStatusChangeMock store appointmentId newStatus, none) := by
  obtain ⟨a0, ha0, hid0⟩ := hmem
  have hfind : ∃ b, store.find? (fun apt => apt.id == appointmentId) = some b := by
    rw [← Option.isSome_iff_exists, List.find?_isSome]
    exact ⟨a0, ha0, by simp [hid0]⟩
  obtain ⟨b, hb⟩ := hfind
  have hbmem : b ∈ store := List.mem_of_find?_eq_some hb
  have hbid : b.id = appointmentId := by simpa using List.find?_some hb
  have hany : store.any (fun a => a.id == appointmentId) = true := by
    rw [List.any_eq_true]
    exact ⟨a0, ha0, by simp [hid0]⟩
  have hmap : store.map (fun a =>
        if a.id == appointmentId then { b with status := newStatus } else a)
      = store.map (fun a =>
        if a.id == appointmentId then { a with status := newStatus } else a) := by
    refine List.map_congr_left (fun a ha => ?_)
    cases hc : a.id == appointmentId
    · simp [hc]
    · have hab : a = b := mem_eq_of_pairwise_ids huniq ha hbmem (by
        rw [hbid]
        exact beq_iff_eq.mp hc)
      simp [hc, hab]
  simp only [handleStatusChange, hb, storeUpdate, hany, if_true, handleStatusChangeMock]
  rw [hmap]

/-- C9 witness: changing the status of record 1 to completed rewrites only the
status field of record 1 and leaves record 2 untouched. -/
theorem c9_statusChangeFrame_witness :
    handleStatusChange
        [mkApt "1" 19773 540 "scheduled", mkApt "2" 19774 600 "scheduled"] "1" "completed"
      = ([mkApt "1" 19773 540 "completed", mkApt "2" 19774 600 "scheduled"], none) := by
  have h := c9_statusChangeFrame
      [mkApt "1" 19773 540 "scheduled", mkApt "2" 19774 600 "scheduled"] "1" "completed"
      (by decide) ⟨mkApt "1" 19773 540 "scheduled", by decide, rfl⟩
  rw [h]
  decide

/-- C10: the Upcoming stat equals the size of the intersection of the
`upcoming` filter result and the `scheduled` filter result: both are computed
from the same predicate, bucket in Today or Upcoming and raw status
scheduled. -/
theorem c10_upcomingCount (x : List Appointment) (now : Nat) :
    upcomingScheduledCount x now
      = (listInter (filterByKey x "upcoming" now) (filterByKey x "scheduled" now)).length := by
  have h1 : filterByKey x "upcoming" now = x.filter (fun apt =>
      isFuture (dateInstant apt.appointment_date) now
        || isToday (dateInstant apt.appointment_date) now) := rfl
  have h2 : filterByKey x "scheduled" now
      = x.filter (fun apt => apt.status == "scheduled") := rfl
  have h3 : (x.filter (fun apt =>
      isFuture (dateInstant apt.appointment_date) now
        || isToday (dateInstant apt.appointment_date) now)).filter
        (fun a => decide (a ∈ x.filter (fun apt => apt.status == "scheduled")))
      = (x.filter (fun apt =>
      isFuture (dateInstant apt.appointment_date) now
        || isToday (dateInstant apt.appointment_date) now)).filter
        (fun apt => apt.status == "scheduled") :=
    List.filter_congr (fun a ha => by
      have hx : a ∈ x := List.mem_of_mem_filter ha
      cases hq : a.status == "scheduled" <;> simp [List.mem_filter, hx, hq])
  have h4 : (x.filter (fun apt =>
      isFuture (dateInstant apt.appointment_date) now
        || isToday (dateInstant apt.appointment_date) now)).filter
        (fun apt => apt.status == "scheduled")
      = x.filter (fun a => (a.status == "scheduled")
          && (isFuture (dateInstant a.appointment_date) now
            || isToday (dateInstant a.appointment_date) now)) := by
    rw [List.filter_filter]
  have h5 : x.filter (fun a => (a.status == "scheduled")
          && (isFuture (dateInstant a.appointment_date) now
            || isToday (dateInstant a.appointment_date) now))
      = x.filter (fun apt => (isFuture (dateInstant apt.appointment_date) now
          || isToday (dateInstant apt.appointment_date) now)
          && apt.status == "scheduled") :=
    List.filter_congr (fun a _ => Bool.and_comm _ _)
  simp only [upcomingScheduledCount, listInter]
  rw [h1, h2, h3, h4, h5]
